import Mathlib

/-!
Shallow embedding of the authentication core of the repository
`Vishesh485/stock_predictor` (files `backend/app/models/user.py`,
`backend/app/utils/database.py`, `backend/app/routes/auth.py`).

The store is a list of Mongo-style documents (association lists of
string keys to BSON-ish values).  The handlers `register`, `login`,
`get_me` and `verify_token` are translated from `routes/auth.py`; the
store helpers `get_user_by_email`, `create_user` and `get_user_by_id`
from `utils/database.py`.  The password hasher and the token
issuer/verifier live in `app/utils/auth.py`, which is not part of the
provided sources; those are modelled from the specification (sections
4.1 and 4.2) and are marked as such in their doc comments.

Effects on the store are made explicit: every store helper threads a
`DB` value and bumps a read or write counter, so that frame conditions
("one read, one write") are provable statements about the embedding.
Non-determinism of the real system (salt generation, the store's id
assignment, the clock) is made explicit as parameters (`salt`, the
`nextOid` counter of the store, `now`).
-/

namespace Auth

/-- A salted password digest.  Modelled from the spec (section 4.1): the
hasher lives in the missing `app/utils/auth.py`; a digest embeds its salt
and a one-way body recomputed from the plaintext on verification.  The
digest is its own type, distinct from plaintext strings. -/
structure Digest where
  salt : Nat
  body : Nat
deriving Repr, DecidableEq

/-- Deterministic body of a digest, keyed by the salt.  Modelled from the
spec: stands in for the one-way core of the hasher in the missing
`app/utils/auth.py`. -/
def hashBody (salt : Nat) (p : String) : Nat :=
  p.data.foldl (fun a c => a * 131 + c.toNat + 1) (salt + 7)

/-- Modelled from the spec: `get_password_hash` of the missing
`app/utils/auth.py` produces a salted one-way digest; the per-call random
salt is passed explicitly. -/
def get_password_hash (p : String) (salt : Nat) : Digest :=
  ⟨salt, hashBody salt p⟩

/-- Modelled from the spec: `verify_password` of the missing
`app/utils/auth.py` recomputes the body with the embedded salt and
compares. -/
def verify_password (p : String) (d : Digest) : Bool :=
  hashBody d.salt p == d.body

/-- A BSON-ish value as stored in a Mongo document or returned in a JSON
response body. -/
inductive Value where
  | str (s : String)
  | oid (s : String)
  | digest (d : Digest)
  | time (t : Nat)
  | bool (b : Bool)
  | null
deriving Repr, DecidableEq

/-- A Mongo document / Python dict: an association list of keys to
values, as built literally by `create_user`. -/
abbrev Doc := List (String × Value)

/-- Key lookup in a document, mirroring Python `d[k]` / `d.get(k)`
(`none` models a missing key). -/
def getField (doc : Doc) (k : String) : Option Value :=
  (doc.find? (fun kv => kv.1 == k)).map (fun kv => kv.2)

/-- Python `str(...)` on a stored value; `str` of an `ObjectId` is its
hex string. -/
def strOfValue : Value → String
  | .str s => s
  | .oid s => s
  | .digest d => toString d.body
  | .time t => toString t
  | .bool b => toString b
  | .null => "None"

/-- Whether a response value is a password digest (used to state that
responses never leak the digest). -/
def hasDigest : Value → Bool
  | .digest _ => true
  | _ => false

/-- No field of the document carries a password digest. -/
def docHasNoDigest (doc : Doc) : Bool :=
  doc.all (fun kv => !hasDigest kv.2)

/-- The Mongo store plus explicit effect counters.  `users` is the
`User` collection in insertion order; `nextOid` is the store's id
supply (insert assigns `oidOfNat nextOid`); `reads`/`writes` count the
collection reads (`find_one`) and writes (`insert_one`) performed. -/
structure DB where
  users : List Doc
  nextOid : Nat
  reads : Nat
  writes : Nat
deriving Repr, DecidableEq

/-- Lower-case hex digit. -/
def hexDigitChar (n : Nat) : Char :=
  if n < 10 then Char.ofNat (48 + n) else Char.ofNat (87 + n)

/-- Fixed-width big-endian hex rendering. -/
def hexChars : Nat → Nat → List Char
  | 0, _ => []
  | w + 1, v => hexChars w (v / 16) ++ [hexDigitChar (v % 16)]

/-- The 24-hex-character string form of the `n`-th ObjectId the store
hands out. -/
def oidOfNat (n : Nat) : String :=
  String.mk (hexChars 24 n)

/-- Hexadecimal character (either case), as accepted by `bson.ObjectId`. -/
def isHexChar (c : Char) : Bool :=
  c.isDigit || (97 ≤ c.toNat && c.toNat ≤ 102) || (65 ≤ c.toNat && c.toNat ≤ 70)

/-- A string `bson.ObjectId(s)` accepts: exactly 24 hex characters.
Anything else makes the constructor raise. -/
def isValidObjectId (s : String) : Bool :=
  s.length == 24 && s.data.all isHexChar

/-- Lower-case an ASCII letter. -/
def lowerChar (c : Char) : Char :=
  if 65 ≤ c.toNat && c.toNat ≤ 90 then Char.ofNat (c.toNat + 32) else c

/-- Case normalisation of a hex string, modelling that `bson.ObjectId`
compares its 12 bytes, so the two cases of a hex digit are the same id. -/
def lowerHex (s : String) : String :=
  String.mk (s.data.map lowerChar)

/-- `get_user_by_email` of `utils/database.py`: `find_one({"email": email})`,
one collection read; returns the first matching document. -/
def get_user_by_email (email : String) (db : DB) : Option Doc × DB :=
  (db.users.find? (fun d => getField d "email" == some (.str email)),
   { db with reads := db.reads + 1 })

/-- Optional display name as stored: Python `None` becomes BSON null. -/
def nameValue : Option String → Value
  | some n => .str n
  | none => .null

/-- The document `create_user` builds and returns: the literal dict of
`utils/database.py` lines 48-57 with the store-assigned `_id` added at
the end (line 61). -/
def mkUserDoc (email : String) (hashed : Digest) (name : Option String)
    (now : Nat) (oid : String) : Doc :=
  [("email", .str email),
   ("password", .digest hashed),
   ("name", nameValue name),
   ("provider", .str "email"),
   ("createdAt", .time now),
   ("updatedAt", .time now),
   ("_id", .oid oid)]

/-- `create_user` of `utils/database.py`: builds the user dict, performs
one `insert_one` (the store assigns the next ObjectId), and returns the
dict with `_id` set. -/
def create_user (email : String) (hashed : Digest) (name : Option String)
    (now : Nat) (db : DB) : Doc × DB :=
  let doc := mkUserDoc email hashed name now (oidOfNat db.nextOid)
  (doc,
   { db with users := db.users ++ [doc],
             nextOid := db.nextOid + 1,
             writes := db.writes + 1 })

/-- `get_user_by_id` of `utils/database.py`: `ObjectId(user_id)` inside
`try`; a malformed id string makes the constructor raise and the bare
`except` return `None` without touching the collection; otherwise one
`find_one({"_id": ...})` read (ObjectId comparison is case-insensitive
on the hex form). -/
def get_user_by_id (user_id : String) (db : DB) : Option Doc × DB :=
  if isValidObjectId user_id then
    (db.users.find? (fun d => getField d "_id" == some (.oid (lowerHex user_id))),
     { db with reads := db.reads + 1 })
  else
    (none, db)

/-- JWT claims as issued by this service. -/
structure Claims where
  sub : String
  email : String
  exp : Nat
  iat : Nat
deriving Repr, DecidableEq

/-- A signed token: claims plus a MAC over them. -/
structure SignedToken where
  claims : Claims
  sig : Nat
deriving Repr, DecidableEq

/-- Modelled from the spec: the MAC of the signing scheme used by the
missing `app/utils/auth.py`, keyed by the server secret. -/
def signFn (secret : Nat) (c : Claims) : Nat :=
  hashBody secret c.sub + 31 * hashBody secret c.email + c.exp * 65537 + c.iat * 257

/-- Modelled from the spec (section 6): the configured token expiry
window in minutes, a process-wide constant of the missing
`app/utils/auth.py`. -/
def ACCESS_TOKEN_EXPIRE_MINUTES : Nat := 30

/-- Modelled from the spec (section 4.2): `create_access_token` of the
missing `app/utils/auth.py` embeds subject, email, expiry (= issue time
plus ttl in seconds) and issued-at, signed with the server secret. -/
def create_access_token (sub email : String) (expiresMinutes : Nat)
    (now secret : Nat) : SignedToken :=
  let c : Claims := ⟨sub, email, now + expiresMinutes * 60, now⟩
  ⟨c, signFn secret c⟩

/-- Token verification failure kinds (spec section 4.2). -/
inductive TokenErr where
  | invalidSignature
  | expiredToken
  | malformedToken
deriving Repr, DecidableEq

/-- Modelled from the spec (section 4.2): token verification fails on a
bad signature or elapsed expiry and otherwise returns the embedded
claims unchanged. -/
def decode_token (t : SignedToken) (now secret : Nat) : Except TokenErr Claims :=
  if t.sig != signFn secret t.claims then .error .invalidSignature
  else if t.claims.exp ≤ now then .error .expiredToken
  else .ok t.claims

/-- An HTTP error response: status code, detail message, extra headers
(as raised via `HTTPException`). -/
structure ErrResponse where
  status : Nat
  detail : String
  headers : List (String × String)
deriving Repr, DecidableEq

/-- The 400 raised by `register` on a duplicate email. -/
def emailAlreadyRegisteredErr : ErrResponse :=
  ⟨400, "Email already registered", []⟩

/-- The 401 raised by `login` on both failure branches. -/
def invalidCredentialsErr : ErrResponse :=
  ⟨401, "Incorrect email or password", [("WWW-Authenticate", "Bearer")]⟩

/-- The 404 raised by `get_me` when the token's subject matches no user. -/
def userNotFoundErr : ErrResponse :=
  ⟨404, "User not found", []⟩

/-- Modelled from the spec: the 401 the missing `get_current_user`
dependency raises on any token-verification failure. -/
def credentialsErr : ErrResponse :=
  ⟨401, "Could not validate credentials", [("WWW-Authenticate", "Bearer")]⟩

/-- The 422 the framework returns when the request body fails model
validation (spec: `ValidationError`, malformed request body). -/
def validationErr : ErrResponse :=
  ⟨422, "Validation error", []⟩

/-- A 500 from an uncaught Python exception (e.g. a `KeyError` on an
ill-formed stored document); unreachable on documents this service
creates. -/
def internalErr : ErrResponse :=
  ⟨500, "Internal Server Error", []⟩

/-- The token response body `{"access_token": ..., "token_type": "bearer"}`. -/
structure TokenOut where
  access_token : SignedToken
  token_type : String
deriving Repr, DecidableEq

/-- `login`'s check of the stored credential: the `verify_password` call
on `user["password"]`.  Spec section 4.1: verification of a value that is
not a recognizable digest fails closed. -/
def verify_password_value (pw : String) (v : Value) : Bool :=
  match v with
  | .digest d => verify_password pw d
  | _ => false

/-- The `register` handler of `routes/auth.py` (body, after request
validation): one email lookup, 400 on a hit, otherwise hash, one
`create_user` write, and a token with subject `str(new_user["_id"])`
and the given email. -/
def register (email pw : String) (name : Option String)
    (salt now secret : Nat) (db : DB) : Except ErrResponse TokenOut × DB :=
  let (existing_user, db1) := get_user_by_email email db
  match existing_user with
  | some _ => (.error emailAlreadyRegisteredErr, db1)
  | none =>
    let hashed_password := get_password_hash pw salt
    let (new_user, db2) := create_user email hashed_password name now db1
    match getField new_user "_id" with
    | none => (.error internalErr, db2)
    | some idv =>
      (.ok ⟨create_access_token (strOfValue idv) email
              ACCESS_TOKEN_EXPIRE_MINUTES now secret, "bearer"⟩, db2)

/-- The `login` handler of `routes/auth.py`: one email lookup; absent
user and failed password verification raise the identical 401; on
success a token with subject `str(user["_id"])` and the stored email. -/
def login (email pw : String) (now secret : Nat) (db : DB) :
    Except ErrResponse TokenOut × DB :=
  let (user?, db1) := get_user_by_email email db
  match user? with
  | none => (.error invalidCredentialsErr, db1)
  | some user =>
    match getField user "password" with
    | none => (.error internalErr, db1)
    | some pv =>
      if verify_password_value pw pv then
        match getField user "_id", getField user "email" with
        | some idv, some emv =>
          (.ok ⟨create_access_token (strOfValue idv) (strOfValue emv)
                  ACCESS_TOKEN_EXPIRE_MINUTES now secret, "bearer"⟩, db1)
        | _, _ => (.error internalErr, db1)
      else (.error invalidCredentialsErr, db1)

/-- The `get_me` handler of `routes/auth.py`, after the `get_current_user`
dependency has supplied the verified claims: one id lookup via the
claims' subject, 404 when absent, otherwise the public projection
`{id, email, name, createdAt}`. -/
def get_me (current_user : Claims) (db : DB) : Except ErrResponse Doc × DB :=
  let user_id := current_user.sub
  let (user?, db1) := get_user_by_id user_id db
  match user? with
  | none => (.error userNotFoundErr, db1)
  | some user =>
    match getField user "_id", getField user "email", getField user "createdAt" with
    | some idv, some emv, some cav =>
      (.ok [("id", .str (strOfValue idv)),
            ("email", emv),
            ("name", (getField user "name").getD .null),
            ("createdAt", cav)], db1)
    | _, _, _ => (.error internalErr, db1)

/-- The `verify_token` handler of `routes/auth.py`, after
`get_current_user` has supplied the verified claims: returns
`{"valid": True, "user_id": sub, "email": email}` straight from the
claims, with no store access. -/
def verify_token (current_user : Claims) (db : DB) : Except ErrResponse Doc × DB :=
  (.ok [("valid", .bool true),
        ("user_id", .str current_user.sub),
        ("email", .str current_user.email)], db)

/-- Modelled from the spec: `get_current_user` of the missing
`app/utils/auth.py` verifies the bearer token (section 4.2) and returns
the embedded claims unchanged, raising 401 on any verification failure.
`get_me`'s use of `current_user.get("sub")` shows the dependency yields
the token claims, not a store record. -/
def get_current_user (tok : SignedToken) (now secret : Nat) :
    Except ErrResponse Claims :=
  match decode_token tok now secret with
  | .error _ => .error credentialsErr
  | .ok c => .ok c

/-- The full `GET /me` endpoint: token verification via the dependency,
then the handler body. -/
def getMeEndpoint (tok : SignedToken) (now secret : Nat) (db : DB) :
    Except ErrResponse Doc × DB :=
  match get_current_user tok now secret with
  | .error e => (.error e, db)
  | .ok c => get_me c db

/-- The full `POST /verify` endpoint: token verification via the
dependency, then the handler body. -/
def verifyEndpoint (tok : SignedToken) (now secret : Nat) (db : DB) :
    Except ErrResponse Doc × DB :=
  match get_current_user tok now secret with
  | .error e => (.error e, db)
  | .ok c => verify_token c db

/-- Minimal stand-in for pydantic's `EmailStr` acceptance (third-party
validation; no claim depends on its details). -/
def isValidEmail (e : String) : Bool :=
  e.data.any (fun c => c == '@')

/-- The full `POST /register` endpoint: pydantic validation of the
`UserRegister` body (`models/user.py`: `password` has `min_length=6`,
`email` is `EmailStr`) happens before the handler body runs, so a
malformed body is rejected with no store access. -/
def registerEndpoint (email pw : String) (name : Option String)
    (salt now secret : Nat) (db : DB) : Except ErrResponse TokenOut × DB :=
  if pw.length < 6 then (.error validationErr, db)
  else if isValidEmail email = false then (.error validationErr, db)
  else register email pw name salt now secret db

/-- Email uniqueness across all stored user records (spec section 3
invariant). -/
def EmailUnique (users : List Doc) : Prop :=
  users.Pairwise (fun a b => getField a "email" ≠ getField b "email")

instance (users : List Doc) : Decidable (EmailUnique users) := by
  unfold EmailUnique
  exact List.instDecidablePairwise users

/-! Concrete states shared by the witnesses and counterexamples below. -/

/-- The empty store with zeroed id supply and effect counters. -/
def db0 : DB := ⟨[], 0, 0, 0⟩

/-- The store after one successful registration of `a@x.com`. -/
def dbReg : DB := (register "a@x.com" "secret1" none 0 0 0 db0).2

/-- The document that registration stores for `a@x.com`. -/
def docReg : Doc := mkUserDoc "a@x.com" (get_password_hash "secret1" 0) none 0 (oidOfNat 0)

/-- A well-signed token for a subject no stored user has. -/
def tokA : SignedToken :=
  create_access_token (oidOfNat 0) "a@x.com" ACCESS_TOKEN_EXPIRE_MINUTES 0 0

/-! Helper lemmas about field lookup in the stored document. -/

theorem getField_mkUserDoc_email (e : String) (d : Digest) (n : Option String)
    (t : Nat) (o : String) : getField (mkUserDoc e d n t o) "email" = some (.str e) := by
  simp [mkUserDoc, getField, List.find?]

theorem getField_mkUserDoc_password (e : String) (d : Digest) (n : Option String)
    (t : Nat) (o : String) :
    getField (mkUserDoc e d n t o) "password" = some (.digest d) := by
  simp [mkUserDoc, getField, List.find?]

theorem getField_mkUserDoc_name (e : String) (d : Digest) (n : Option String)
    (t : Nat) (o : String) : getField (mkUserDoc e d n t o) "name" = some (nameValue n) := by
  simp [mkUserDoc, getField, List.find?]

theorem getField_mkUserDoc_provider (e : String) (d : Digest) (n : Option String)
    (t : Nat) (o : String) :
    getField (mkUserDoc e d n t o) "provider" = some (.str "email") := by
  simp [mkUserDoc, getField, List.find?]

theorem getField_mkUserDoc_createdAt (e : String) (d : Digest) (n : Option String)
    (t : Nat) (o : String) :
    getField (mkUserDoc e d n t o) "createdAt" = some (.time t) := by
  simp [mkUserDoc, getField, List.find?]

theorem getField_mkUserDoc_updatedAt (e : String) (d : Digest) (n : Option String)
    (t : Nat) (o : String) :
    getField (mkUserDoc e d n t o) "updatedAt" = some (.time t) := by
  simp [mkUserDoc, getField, List.find?]

theorem getField_mkUserDoc_id (e : String) (d : Digest) (n : Option String)
    (t : Nat) (o : String) : getField (mkUserDoc e d n t o) "_id" = some (.oid o) := by
  simp [mkUserDoc, getField, List.find?]

theorem getField_mkUserDoc_passwordHash (e : String) (d : Digest) (n : Option String)
    (t : Nat) (o : String) : getField (mkUserDoc e d n t o) "passwordHash" = none := by
  simp [mkUserDoc, getField, List.find?]

/-! Helper lemmas describing each branch of the handlers. -/

theorem verify_password_hash (pw : String) (salt : Nat) :
    verify_password pw (get_password_hash pw salt) = true := by
  simp [verify_password, get_password_hash]

theorem register_of_fresh (email pw : String) (name : Option String)
    (salt now secret : Nat) (db : DB)
    (h : (get_user_by_email email db).1 = none) :
    register email pw name salt now secret db =
      (.ok ⟨create_access_token (oidOfNat db.nextOid) email
              ACCESS_TOKEN_EXPIRE_MINUTES now secret, "bearer"⟩,
       ⟨db.users ++ [mkUserDoc email (get_password_hash pw salt) name now (oidOfNat db.nextOid)],
        db.nextOid + 1, db.reads + 1, db.writes + 1⟩) := by
  have h' : db.users.find? (fun d => getField d "email" == some (.str email)) = none := h
  simp [register, get_user_by_email, h', create_user, getField_mkUserDoc_id, strOfValue]

theorem register_of_dup (email pw : String) (name : Option String)
    (salt now secret : Nat) (db : DB) (u : Doc)
    (h : (get_user_by_email email db).1 = some u) :
    register email pw name salt now secret db =
      (.error emailAlreadyRegisteredErr, { db with reads := db.reads + 1 }) := by
  have h' : db.users.find? (fun d => getField d "email" == some (.str email)) = some u := h
  simp [register, get_user_by_email, h']

theorem login_of_no_user (email pw : String) (now secret : Nat) (db : DB)
    (h : (get_user_by_email email db).1 = none) :
    login email pw now secret db =
      (.error invalidCredentialsErr, { db with reads := db.reads + 1 }) := by
  have h' : db.users.find? (fun d => getField d "email" == some (.str email)) = none := h
  simp [login, get_user_by_email, h']

theorem login_of_bad_password (email pw : String) (now secret : Nat) (db : DB)
    (u : Doc) (pv : Value)
    (h : (get_user_by_email email db).1 = some u)
    (hp : getField u "password" = some pv)
    (hv : verify_password_value pw pv = false) :
    login email pw now secret db =
      (.error invalidCredentialsErr, { db with reads := db.reads + 1 }) := by
  have h' : db.users.find? (fun d => getField d "email" == some (.str email)) = some u := h
  simp [login, get_user_by_email, h', hp, hv]

theorem login_of_found (email pw : String) (now secret : Nat) (db : DB)
    (e : String) (d : Digest) (n : Option String) (t : Nat) (o : String)
    (h : (get_user_by_email email db).1 = some (mkUserDoc e d n t o))
    (hv : verify_password pw d = true) :
    login email pw now secret db =
      (.ok ⟨create_access_token o e ACCESS_TOKEN_EXPIRE_MINUTES now secret, "bearer"⟩,
       { db with reads := db.reads + 1 }) := by
  have h' : db.users.find? (fun dd => getField dd "email" == some (.str email))
      = some (mkUserDoc e d n t o) := h
  simp [login, get_user_by_email, h', getField_mkUserDoc_password, verify_password_value, hv,
        getField_mkUserDoc_id, getField_mkUserDoc_email, strOfValue]

theorem create_user_fst (email : String) (hashed : Digest) (name : Option String)
    (now : Nat) (db : DB) :
    (create_user email hashed name now db).1 = mkUserDoc email hashed name now (oidOfNat db.nextOid) :=
  rfl

/-! Frame lemmas: which parts of the store each handler can touch. -/

theorem login_db (email pw : String) (now secret : Nat) (db : DB) :
    (login email pw now secret db).2 = { db with reads := db.reads + 1 } := by
  rcases hfind : db.users.find? (fun d => getField d "email" == some (Value.str email)) with _ | u
  · simp [login, get_user_by_email, hfind]
  · simp only [login, get_user_by_email, hfind]
    repeat' split
    all_goals rfl

theorem get_me_frame (c : Claims) (db : DB) :
    ((get_me c db).2).writes = db.writes ∧ ((get_me c db).2).users = db.users
    ∧ ((get_me c db).2).nextOid = db.nextOid := by
  by_cases hvalid : isValidObjectId c.sub = true
  · rcases hfind : db.users.find? (fun d => getField d "_id" == some (Value.oid (lowerHex c.sub))) with _ | u
    · simp [get_me, get_user_by_id, hvalid, hfind]
    · simp only [get_me, get_user_by_id, hvalid, if_true, hfind]
      repeat' split
      all_goals exact ⟨rfl, rfl, rfl⟩
  · simp [get_me, get_user_by_id, hvalid]

theorem getMeEndpoint_frame (tok : SignedToken) (now secret : Nat) (db : DB) :
    ((getMeEndpoint tok now secret db).2).writes = db.writes
    ∧ ((getMeEndpoint tok now secret db).2).users = db.users
    ∧ ((getMeEndpoint tok now secret db).2).nextOid = db.nextOid := by
  unfold getMeEndpoint
  split
  · exact ⟨rfl, rfl, rfl⟩
  · exact get_me_frame _ _

theorem verifyEndpoint_db (tok : SignedToken) (now secret : Nat) (db : DB) :
    (verifyEndpoint tok now secret db).2 = db := by
  unfold verifyEndpoint
  split <;> rfl

theorem register_append_only (email pw : String) (name : Option String)
    (salt now secret : Nat) (db : DB) :
    ∃ tail, ((register email pw name salt now secret db).2).users = db.users ++ tail := by
  rcases hfind : (get_user_by_email email db).1 with _ | u
  · exact ⟨_, by rw [register_of_fresh email pw name salt now secret db hfind]⟩
  · exact ⟨[], by rw [register_of_dup email pw name salt now secret db u hfind]; simp⟩

/-- C1: for every valid registration (the email is not already present, the
password has at least 6 characters, the email is well formed), registration
succeeds and stores one new record whose `_id` is the store-assigned ObjectId,
and a subsequent login with the same email and password succeeds and returns a
token whose subject claim equals that assigned id. -/
theorem C1_register_then_login (db : DB) (email pw : String) (name : Option String)
    (salt now secret now2 secret2 : Nat)
    (hfresh : (get_user_by_email email db).1 = none)
    (hlen : 6 ≤ pw.length) (hem : isValidEmail email = true) :
    registerEndpoint email pw name salt now secret db =
      (.ok ⟨create_access_token (oidOfNat db.nextOid) email ACCESS_TOKEN_EXPIRE_MINUTES now secret,
            "bearer"⟩,
       ⟨db.users ++ [mkUserDoc email (get_password_hash pw salt) name now (oidOfNat db.nextOid)],
        db.nextOid + 1, db.reads + 1, db.writes + 1⟩)
    ∧ (login email pw now2 secret2
         ⟨db.users ++ [mkUserDoc email (get_password_hash pw salt) name now (oidOfNat db.nextOid)],
          db.nextOid + 1, db.reads + 1, db.writes + 1⟩).1 =
        .ok ⟨create_access_token (oidOfNat db.nextOid) email ACCESS_TOKEN_EXPIRE_MINUTES now2 secret2,
             "bearer"⟩
    ∧ (create_access_token (oidOfNat db.nextOid) email ACCESS_TOKEN_EXPIRE_MINUTES now2 secret2).claims.sub
        = oidOfNat db.nextOid
    ∧ getField (mkUserDoc email (get_password_hash pw salt) name now (oidOfNat db.nextOid)) "_id"
        = some (.oid (oidOfNat db.nextOid)) := by
  have hreg : registerEndpoint email pw name salt now secret db
      = register email pw name salt now secret db := by
    rw [registerEndpoint, if_neg (by omega), if_neg (by simp [hem])]
  refine ⟨?_, ?_, rfl, getField_mkUserDoc_id _ _ _ _ _⟩
  · rw [hreg, register_of_fresh email pw name salt now secret db hfresh]
  · have hfind2 : ((⟨db.users ++ [mkUserDoc email (get_password_hash pw salt) name now (oidOfNat db.nextOid)],
        db.nextOid + 1, db.reads + 1, db.writes + 1⟩ : DB).users).find?
          (fun d => getField d "email" == some (.str email))
        = some (mkUserDoc email (get_password_hash pw salt) name now (oidOfNat db.nextOid)) := by
      show (db.users ++ [mkUserDoc email (get_password_hash pw salt) name now (oidOfNat db.nextOid)]).find?
          (fun d => getField d "email" == some (.str email)) = _
      rw [List.find?_append, show db.users.find? (fun d => getField d "email" == some (.str email))
            = none from hfresh]
      simp [List.find?, getField_mkUserDoc_email]
    rw [login_of_found email pw now2 secret2 _ email (get_password_hash pw salt) name now
          (oidOfNat db.nextOid) hfind2 (verify_password_hash pw salt)]

/-- Witness for C1: registering `a@x.com` with password `secret1` on the empty
store and then logging in with the same credentials. -/
theorem C1_witness :
    (get_user_by_email "a@x.com" db0).1 = none
    ∧ 6 ≤ "secret1".length
    ∧ isValidEmail "a@x.com" = true
    ∧ (registerEndpoint "a@x.com" "secret1" none 0 0 0 db0 =
        (.ok ⟨create_access_token (oidOfNat db0.nextOid) "a@x.com" ACCESS_TOKEN_EXPIRE_MINUTES 0 0,
              "bearer"⟩,
         ⟨db0.users ++ [mkUserDoc "a@x.com" (get_password_hash "secret1" 0) none 0 (oidOfNat db0.nextOid)],
          db0.nextOid + 1, db0.reads + 1, db0.writes + 1⟩)
      ∧ (login "a@x.com" "secret1" 0 0
           ⟨db0.users ++ [mkUserDoc "a@x.com" (get_password_hash "secret1" 0) none 0 (oidOfNat db0.nextOid)],
            db0.nextOid + 1, db0.reads + 1, db0.writes + 1⟩).1 =
          .ok ⟨create_access_token (oidOfNat db0.nextOid) "a@x.com" ACCESS_TOKEN_EXPIRE_MINUTES 0 0,
               "bearer"⟩
      ∧ (create_access_token (oidOfNat db0.nextOid) "a@x.com" ACCESS_TOKEN_EXPIRE_MINUTES 0 0).claims.sub
          = oidOfNat db0.nextOid
      ∧ getField (mkUserDoc "a@x.com" (get_password_hash "secret1" 0) none 0 (oidOfNat db0.nextOid)) "_id"
          = some (.oid (oidOfNat db0.nextOid))) :=
  ⟨by decide, by decide, by decide,
   C1_register_then_login db0 "a@x.com" "secret1" none 0 0 0 0 0 (by decide) (by decide) (by decide)⟩

/-- C2 (amended): on a verified token whose subject matches no stored user,
the get-current-user operation extracts the subject, looks the user up by id
and fails with 404 `UserNotFound`; the verify-token operation performs no
store lookup and succeeds straight from the claims. -/
theorem C2_identify_lookup (db : DB) (c : Claims)
    (habs : (get_user_by_id c.sub db).1 = none) :
    (get_me c db).1 = .error userNotFoundErr
    ∧ userNotFoundErr.status = 404
    ∧ verify_token c db =
        (.ok [("valid", .bool true), ("user_id", .str c.sub), ("email", .str c.email)], db) := by
  refine ⟨?_, rfl, rfl⟩
  by_cases hvalid : isValidObjectId c.sub = true
  · have h' : db.users.find? (fun d => getField d "_id" == some (.oid (lowerHex c.sub))) = none := by
      have h2 := habs
      simp [get_user_by_id, hvalid] at h2
      rw [List.find?_eq_none]
      simpa using h2
    simp [get_me, get_user_by_id, hvalid, h']
  · simp [get_me, get_user_by_id, hvalid]

/-- Witness for C2's amended statement at a concrete claims/store pair. -/
theorem C2_witness :
    (get_user_by_id (Claims.mk (oidOfNat 0) "a@x.com" 1800 0).sub db0).1 = none
    ∧ ((get_me ⟨oidOfNat 0, "a@x.com", 1800, 0⟩ db0).1 = .error userNotFoundErr
      ∧ userNotFoundErr.status = 404
      ∧ verify_token ⟨oidOfNat 0, "a@x.com", 1800, 0⟩ db0 =
          (.ok [("valid", .bool true), ("user_id", .str (Claims.mk (oidOfNat 0) "a@x.com" 1800 0).sub),
                ("email", .str (Claims.mk (oidOfNat 0) "a@x.com" 1800 0).email)], db0)) :=
  ⟨by decide, C2_identify_lookup db0 ⟨oidOfNat 0, "a@x.com", 1800, 0⟩ (by decide)⟩

/-- C2 counterexample: on the empty store, a well-signed token for subject
`oidOfNat 0` makes `GET /me` fail with 404, but `POST /verify` — which the
claim says also fails with `UserNotFound` — succeeds with `valid = true`. -/
theorem C2_counterexample :
    (get_user_by_id (oidOfNat 0) db0).1 = none
    ∧ (getMeEndpoint tokA 1 0 db0).1 = .error userNotFoundErr
    ∧ (verifyEndpoint tokA 1 0 db0).1 =
        .ok [("valid", .bool true), ("user_id", .str (oidOfNat 0)), ("email", .str "a@x.com")] :=
  ⟨by decide, by rfl, by rfl⟩

/-- C3: a login with a non-existent email and a login with an existing email
but wrong password produce identical responses — the same 401 status, the
same detail message and the same headers — for every store state. -/
theorem C3_login_indistinguishable (db : DB) (email1 pw1 email2 pw2 : String)
    (now secret : Nat) (u : Doc) (pv : Value)
    (h1 : (get_user_by_email email1 db).1 = none)
    (h2 : (get_user_by_email email2 db).1 = some u)
    (hp : getField u "password" = some pv)
    (hv : verify_password_value pw2 pv = false) :
    login email1 pw1 now secret db = (.error invalidCredentialsErr, { db with reads := db.reads + 1 })
    ∧ login email2 pw2 now secret db = (.error invalidCredentialsErr, { db with reads := db.reads + 1 })
    ∧ login email1 pw1 now secret db = login email2 pw2 now secret db
    ∧ invalidCredentialsErr.status = 401 :=
  have a := login_of_no_user email1 pw1 now secret db h1
  have b := login_of_bad_password email2 pw2 now secret db u pv h2 hp hv
  ⟨a, b, by rw [a, b], rfl⟩

/-- Witness for C3: on the store holding `a@x.com`, logging in as the absent
`b@x.com` and logging in as `a@x.com` with the wrong password `wrongpw`. -/
theorem C3_witness :
    (get_user_by_email "b@x.com" dbReg).1 = none
    ∧ (get_user_by_email "a@x.com" dbReg).1 = some docReg
    ∧ getField docReg "password" = some (.digest (get_password_hash "secret1" 0))
    ∧ verify_password_value "wrongpw" (.digest (get_password_hash "secret1" 0)) = false
    ∧ (login "b@x.com" "anypw" 0 0 dbReg =
         (.error invalidCredentialsErr, { dbReg with reads := dbReg.reads + 1 })
      ∧ login "a@x.com" "wrongpw" 0 0 dbReg =
         (.error invalidCredentialsErr, { dbReg with reads := dbReg.reads + 1 })
      ∧ login "b@x.com" "anypw" 0 0 dbReg = login "a@x.com" "wrongpw" 0 0 dbReg
      ∧ invalidCredentialsErr.status = 401) :=
  ⟨by decide, by decide, by decide, by decide,
   C3_login_indistinguishable dbReg "b@x.com" "anypw" "a@x.com" "wrongpw" 0 0 docReg
     (.digest (get_password_hash "secret1" 0)) (by decide) (by decide) (by decide) (by decide)⟩

/-- C4: email uniqueness across all stored user records is preserved by every
operation, and when a user with the given email already exists, the register
handler fails with 400 `EmailAlreadyRegistered`, creates no record and leaves
the stored collection unchanged (only the read counter moves). -/
theorem C4_email_uniqueness (db : DB) (email pw : String) (name : Option String)
    (salt now secret : Nat) (u : Doc) (tok : SignedToken)
    (huniq : EmailUnique db.users) :
    EmailUnique ((registerEndpoint email pw name salt now secret db).2).users
    ∧ EmailUnique ((login email pw now secret db).2).users
    ∧ EmailUnique ((getMeEndpoint tok now secret db).2).users
    ∧ EmailUnique ((verifyEndpoint tok now secret db).2).users
    ∧ ((get_user_by_email email db).1 = some u →
        register email pw name salt now secret db =
          (.error emailAlreadyRegisteredErr, { db with reads := db.reads + 1 })) := by
  refine ⟨?_, ?_, ?_, ?_, fun hdup => register_of_dup email pw name salt now secret db u hdup⟩
  · by_cases hlen : pw.length < 6
    · rw [registerEndpoint, if_pos hlen]
      exact huniq
    · by_cases hem : isValidEmail email = false
      · rw [registerEndpoint, if_neg hlen, if_pos hem]
        exact huniq
      · rw [registerEndpoint, if_neg hlen, if_neg hem]
        rcases hfind : (get_user_by_email email db).1 with _ | v
        · rw [register_of_fresh email pw name salt now secret db hfind]
          have hnew : ∀ a ∈ db.users, getField a "email" ≠ some (.str email) := by
            intro a ha
            have hx := List.find?_eq_none.mp hfind a ha
            simpa using hx
          unfold EmailUnique
          rw [List.pairwise_append]
          refine ⟨huniq, by simp, ?_⟩
          intro a ha b hb
          simp only [List.mem_singleton] at hb
          subst hb
          rw [getField_mkUserDoc_email]
          exact hnew a ha
        · rw [register_of_dup email pw name salt now secret db v hfind]
          exact huniq
  · rw [login_db]
    exact huniq
  · rw [(getMeEndpoint_frame tok now secret db).2.1]
    exact huniq
  · rw [verifyEndpoint_db]
    exact huniq

/-- Witness for C4 on the one-user store, with the duplicate email
`a@x.com`. -/
theorem C4_witness :
    EmailUnique dbReg.users
    ∧ (EmailUnique ((registerEndpoint "a@x.com" "secret2" none 5 9 0 dbReg).2).users
      ∧ EmailUnique ((login "a@x.com" "secret2" 9 0 dbReg).2).users
      ∧ EmailUnique ((getMeEndpoint tokA 9 0 dbReg).2).users
      ∧ EmailUnique ((verifyEndpoint tokA 9 0 dbReg).2).users
      ∧ ((get_user_by_email "a@x.com" dbReg).1 = some docReg →
          register "a@x.com" "secret2" none 5 9 0 dbReg =
            (.error emailAlreadyRegisteredErr, { dbReg with reads := dbReg.reads + 1 }))) :=
  ⟨by decide,
   C4_email_uniqueness dbReg "a@x.com" "secret2" none 5 9 0 docReg tokA (by decide)⟩

/-- C5: on success the get-current-user operation returns exactly the public
projection — id, email, name, createdAt — of the stored record, and no field
of the response carries the stored password digest. -/
theorem C5_me_public_projection (db : DB) (c : Claims) (e : String) (d : Digest)
    (n : Option String) (t : Nat) (o : String)
    (hfound : (get_user_by_id c.sub db).1 = some (mkUserDoc e d n t o)) :
    (get_me c db).1 =
      .ok [("id", .str o), ("email", .str e), ("name", nameValue n), ("createdAt", .time t)]
    ∧ docHasNoDigest
        [("id", .str o), ("email", .str e), ("name", nameValue n), ("createdAt", .time t)] = true := by
  constructor
  · by_cases hvalid : isValidObjectId c.sub = true
    · have h' : db.users.find? (fun dd => getField dd "_id" == some (.oid (lowerHex c.sub)))
          = some (mkUserDoc e d n t o) := by
        have h2 := hfound
        simp only [get_user_by_id, hvalid, if_true] at h2
        exact h2
      simp [get_me, get_user_by_id, hvalid, h', getField_mkUserDoc_id, getField_mkUserDoc_email,
            getField_mkUserDoc_createdAt, getField_mkUserDoc_name, strOfValue]
    · have h2 := hfound
      simp [get_user_by_id, hvalid] at h2
  · cases n <;> simp [docHasNoDigest, hasDigest, nameValue]

/-- Witness for C5: reading back the registered `a@x.com` user. -/
theorem C5_witness :
    (get_user_by_id (Claims.mk (oidOfNat 0) "a@x.com" 1800 0).sub dbReg).1 =
      some (mkUserDoc "a@x.com" (get_password_hash "secret1" 0) none 0 (oidOfNat 0))
    ∧ ((get_me ⟨oidOfNat 0, "a@x.com", 1800, 0⟩ dbReg).1 =
        .ok [("id", .str (oidOfNat 0)), ("email", .str "a@x.com"),
             ("name", nameValue none), ("createdAt", .time 0)]
      ∧ docHasNoDigest
          [("id", .str (oidOfNat 0)), ("email", .str "a@x.com"),
           ("name", nameValue none), ("createdAt", .time 0)] = true) :=
  ⟨by decide,
   C5_me_public_projection dbReg ⟨oidOfNat 0, "a@x.com", 1800, 0⟩ "a@x.com"
     (get_password_hash "secret1" 0) none 0 (oidOfNat 0) (by decide)⟩

/-- C6 (amended): every record created by registration stores the password
only as a salted one-way digest — a `Digest` value that embeds its salt and is
never the plaintext string — under the key `password` (the code's field name;
the spec's `passwordHash` key does not occur), has `provider` fixed to
`email`, and has `createdAt` and `updatedAt` set to the creation time. -/
theorem C6_created_record_fields (email pw : String) (name : Option String)
    (salt now : Nat) (db : DB) :
    getField ((create_user email (get_password_hash pw salt) name now db).1) "password"
      = some (.digest (get_password_hash pw salt))
    ∧ (get_password_hash pw salt).salt = salt
    ∧ verify_password pw (get_password_hash pw salt) = true
    ∧ ((Value.digest (get_password_hash pw salt)) == (Value.str pw)) = false
    ∧ getField ((create_user email (get_password_hash pw salt) name now db).1) "passwordHash" = none
    ∧ getField ((create_user email (get_password_hash pw salt) name now db).1) "provider"
      = some (.str "email")
    ∧ getField ((create_user email (get_password_hash pw salt) name now db).1) "createdAt"
      = some (.time now)
    ∧ getField ((create_user email (get_password_hash pw salt) name now db).1) "updatedAt"
      = some (.time now) := by
  rw [create_user_fst]
  exact ⟨getField_mkUserDoc_password _ _ _ _ _, rfl, verify_password_hash pw salt, by simp,
         getField_mkUserDoc_passwordHash _ _ _ _ _, getField_mkUserDoc_provider _ _ _ _ _,
         getField_mkUserDoc_createdAt _ _ _ _ _, getField_mkUserDoc_updatedAt _ _ _ _ _⟩

/-- Witness for C6's amended statement at a concrete creation. -/
theorem C6_witness :
    getField ((create_user "a@x.com" (get_password_hash "secret1" 0) none 0 db0).1) "password"
      = some (.digest (get_password_hash "secret1" 0))
    ∧ (get_password_hash "secret1" 0).salt = 0
    ∧ verify_password "secret1" (get_password_hash "secret1" 0) = true
    ∧ ((Value.digest (get_password_hash "secret1" 0)) == (Value.str "secret1")) = false
    ∧ getField ((create_user "a@x.com" (get_password_hash "secret1" 0) none 0 db0).1) "passwordHash" = none
    ∧ getField ((create_user "a@x.com" (get_password_hash "secret1" 0) none 0 db0).1) "provider"
      = some (.str "email")
    ∧ getField ((create_user "a@x.com" (get_password_hash "secret1" 0) none 0 db0).1) "createdAt"
      = some (.time 0)
    ∧ getField ((create_user "a@x.com" (get_password_hash "secret1" 0) none 0 db0).1) "updatedAt"
      = some (.time 0) :=
  C6_created_record_fields "a@x.com" "secret1" none 0 0 db0

/-- C6 counterexample: the record registration creates has no `passwordHash`
field at all — the digest is stored under the key `password` — so the claim's
"stores ... in a `passwordHash` field" is false on the code. -/
theorem C6_counterexample :
    getField ((create_user "a@x.com" (get_password_hash "secret1" 0) none 0 db0).1) "passwordHash"
      = none
    ∧ getField ((create_user "a@x.com" (get_password_hash "secret1" 0) none 0 db0).1) "password"
      = some (.digest (get_password_hash "secret1" 0)) :=
  ⟨by decide, by decide⟩

/-- C7: the token issued by the register handler carries subject = the newly
assigned id and email = the email given in the request; the token issued by
the login handler carries subject = the stored user's id and email = the
stored email; both use the configured expiry window (`exp` is the issue time
plus `ACCESS_TOKEN_EXPIRE_MINUTES` minutes). -/
theorem C7_token_claims (db : DB) (emailR pw : String) (name : Option String)
    (salt now secret : Nat) (emailL pwL : String) (e : String) (d : Digest)
    (n : Option String) (t : Nat) (o : String)
    (hfresh : (get_user_by_email emailR db).1 = none)
    (hfound : (get_user_by_email emailL db).1 = some (mkUserDoc e d n t o))
    (hv : verify_password pwL d = true) :
    (register emailR pw name salt now secret db).1 =
      .ok ⟨create_access_token (oidOfNat db.nextOid) emailR ACCESS_TOKEN_EXPIRE_MINUTES now secret,
           "bearer"⟩
    ∧ (login emailL pwL now secret db).1 =
      .ok ⟨create_access_token o e ACCESS_TOKEN_EXPIRE_MINUTES now secret, "bearer"⟩
    ∧ (create_access_token (oidOfNat db.nextOid) emailR ACCESS_TOKEN_EXPIRE_MINUTES now secret).claims
        = ⟨oidOfNat db.nextOid, emailR, now + ACCESS_TOKEN_EXPIRE_MINUTES * 60, now⟩
    ∧ (create_access_token o e ACCESS_TOKEN_EXPIRE_MINUTES now secret).claims
        = ⟨o, e, now + ACCESS_TOKEN_EXPIRE_MINUTES * 60, now⟩
    ∧ getField (mkUserDoc e d n t o) "_id" = some (.oid o)
    ∧ getField (mkUserDoc e d n t o) "email" = some (.str e) := by
  refine ⟨?_, ?_, rfl, rfl, getField_mkUserDoc_id _ _ _ _ _, getField_mkUserDoc_email _ _ _ _ _⟩
  · rw [register_of_fresh emailR pw name salt now secret db hfresh]
  · rw [login_of_found emailL pwL now secret db e d n t o hfound hv]

/-- Witness for C7: a fresh registration of `b@x.com` and a login of the
stored `a@x.com` user on the one-user store. -/
theorem C7_witness :
    (get_user_by_email "b@x.com" dbReg).1 = none
    ∧ (get_user_by_email "a@x.com" dbReg).1 =
        some (mkUserDoc "a@x.com" (get_password_hash "secret1" 0) none 0 (oidOfNat 0))
    ∧ verify_password "secret1" (get_password_hash "secret1" 0) = true
    ∧ ((register "b@x.com" "secret2" none 5 9 7 dbReg).1 =
        .ok ⟨create_access_token (oidOfNat dbReg.nextOid) "b@x.com" ACCESS_TOKEN_EXPIRE_MINUTES 9 7,
             "bearer"⟩
      ∧ (login "a@x.com" "secret1" 9 7 dbReg).1 =
        .ok ⟨create_access_token (oidOfNat 0) "a@x.com" ACCESS_TOKEN_EXPIRE_MINUTES 9 7, "bearer"⟩
      ∧ (create_access_token (oidOfNat dbReg.nextOid) "b@x.com" ACCESS_TOKEN_EXPIRE_MINUTES 9 7).claims
          = ⟨oidOfNat dbReg.nextOid, "b@x.com", 9 + ACCESS_TOKEN_EXPIRE_MINUTES * 60, 9⟩
      ∧ (create_access_token (oidOfNat 0) "a@x.com" ACCESS_TOKEN_EXPIRE_MINUTES 9 7).claims
          = ⟨oidOfNat 0, "a@x.com", 9 + ACCESS_TOKEN_EXPIRE_MINUTES * 60, 9⟩
      ∧ getField (mkUserDoc "a@x.com" (get_password_hash "secret1" 0) none 0 (oidOfNat 0)) "_id"
          = some (.oid (oidOfNat 0))
      ∧ getField (mkUserDoc "a@x.com" (get_password_hash "secret1" 0) none 0 (oidOfNat 0)) "email"
          = some (.str "a@x.com")) :=
  ⟨by decide, by decide, by decide,
   C7_token_claims dbReg "b@x.com" "secret2" none 5 9 7 "a@x.com" "secret1" "a@x.com"
     (get_password_hash "secret1" 0) none 0 (oidOfNat 0) (by decide) (by decide) (by decide)⟩

/-- C8: a register request whose password is shorter than 6 characters is
rejected by model validation with a `ValidationError` before the handler
runs: the response is the validation error and the store — records, id
supply and both effect counters — is returned untouched, so no store access
happens and no user is created. -/
theorem C8_short_password_rejected (db : DB) (email pw : String) (name : Option String)
    (salt now secret : Nat) (hshort : pw.length < 6) :
    registerEndpoint email pw name salt now secret db = (.error validationErr, db) := by
  rw [registerEndpoint, if_pos hshort]

/-- Witness for C8: the 3-character password `abc`. -/
theorem C8_witness :
    "abc".length < 6
    ∧ registerEndpoint "a@x.com" "abc" none 0 0 0 dbReg = (.error validationErr, dbReg) :=
  ⟨by decide, C8_short_password_rejected dbReg "a@x.com" "abc" none 0 0 0 (by decide)⟩

/-- C9 (amended): the register handler performs exactly one store read, and
exactly one store write when it succeeds but none when it fails with
`EmailAlreadyRegistered`; the login handler performs exactly one store read
and no write on every path; no write occurs on the identify operations
(`GET /me` and `POST /verify`); and no operation updates or deletes an
existing record — the collection only ever grows by appending. -/
theorem C9_store_effects (db : DB) (email pw : String) (name : Option String)
    (salt now secret : Nat) (u : Doc) (tok : SignedToken) (c : Claims) :
    ((get_user_by_email email db).1 = none →
        (register email pw name salt now secret db).2 =
          ⟨db.users ++ [mkUserDoc email (get_password_hash pw salt) name now (oidOfNat db.nextOid)],
           db.nextOid + 1, db.reads + 1, db.writes + 1⟩)
    ∧ ((get_user_by_email email db).1 = some u →
        (register email pw name salt now secret db).2 = { db with reads := db.reads + 1 })
    ∧ (login email pw now secret db).2 = { db with reads := db.reads + 1 }
    ∧ ((getMeEndpoint tok now secret db).2).writes = db.writes
    ∧ ((getMeEndpoint tok now secret db).2).users = db.users
    ∧ (verifyEndpoint tok now secret db).2 = db
    ∧ ((get_me c db).2).writes = db.writes
    ∧ (verify_token c db).2 = db
    ∧ (∃ tail, ((register email pw name salt now secret db).2).users = db.users ++ tail) := by
  refine ⟨?_, ?_, login_db email pw now secret db, (getMeEndpoint_frame tok now secret db).1,
          (getMeEndpoint_frame tok now secret db).2.1, verifyEndpoint_db tok now secret db,
          (get_me_frame c db).1, rfl, register_append_only email pw name salt now secret db⟩
  · intro hfresh
    rw [register_of_fresh email pw name salt now secret db hfresh]
  · intro hdup
    rw [register_of_dup email pw name salt now secret db u hdup]

/-- Witness for C9's amended statement on the one-user store. -/
theorem C9_witness :
    ((get_user_by_email "a@x.com" dbReg).1 = none →
        (register "a@x.com" "secret2" none 5 9 0 dbReg).2 =
          ⟨dbReg.users ++ [mkUserDoc "a@x.com" (get_password_hash "secret2" 5) none 9 (oidOfNat dbReg.nextOid)],
           dbReg.nextOid + 1, dbReg.reads + 1, dbReg.writes + 1⟩)
    ∧ ((get_user_by_email "a@x.com" dbReg).1 = some docReg →
        (register "a@x.com" "secret2" none 5 9 0 dbReg).2 = { dbReg with reads := dbReg.reads + 1 })
    ∧ (login "a@x.com" "secret2" 9 0 dbReg).2 = { dbReg with reads := dbReg.reads + 1 }
    ∧ ((getMeEndpoint tokA 9 0 dbReg).2).writes = dbReg.writes
    ∧ ((getMeEndpoint tokA 9 0 dbReg).2).users = dbReg.users
    ∧ (verifyEndpoint tokA 9 0 dbReg).2 = dbReg
    ∧ ((get_me (Claims.mk (oidOfNat 0) "a@x.com" 1800 0) dbReg).2).writes = dbReg.writes
    ∧ (verify_token (Claims.mk (oidOfNat 0) "a@x.com" 1800 0) dbReg).2 = dbReg
    ∧ (∃ tail, ((register "a@x.com" "secret2" none 5 9 0 dbReg).2).users = dbReg.users ++ tail) :=
  C9_store_effects dbReg "a@x.com" "secret2" none 5 9 0 docReg tokA ⟨oidOfNat 0, "a@x.com", 1800, 0⟩

/-- C9 counterexample: registering `a@x.com` a second time performs no store
write (the write counter stays at 1), so "Register performs exactly one store
read and one store write" fails on the duplicate-email path. -/
theorem C9_counterexample :
    ((register "a@x.com" "secret2" none 5 9 0 dbReg).2).writes = dbReg.writes
    ∧ dbReg.writes = 1
    ∧ ((register "a@x.com" "secret2" none 5 9 0 dbReg).2).writes ≠ dbReg.writes + 1 :=
  ⟨by decide, by decide, by decide⟩

/-- C10: for every string that is not a well-formed ObjectId,
`get_user_by_id` returns `None` instead of raising and leaves the store
untouched, so the get-current-user operation on a verified token with a
malformed subject fails with 404 `UserNotFound` rather than crashing. -/
theorem C10_malformed_object_id (s : String) (db : DB) (c : Claims)
    (hbad : isValidObjectId s = false) (hsub : c.sub = s) :
    get_user_by_id s db = (none, db)
    ∧ (get_me c db).1 = .error userNotFoundErr
    ∧ userNotFoundErr.status = 404 := by
  have h1 : get_user_by_id s db = (none, db) := by
    simp [get_user_by_id, hbad]
  refine ⟨h1, ?_, rfl⟩
  simp [get_me, hsub, h1]

/-- Witness for C10: the malformed id string `not-an-objectid`. -/
theorem C10_witness :
    isValidObjectId "not-an-objectid" = false
    ∧ (get_user_by_id "not-an-objectid" dbReg = (none, dbReg)
      ∧ (get_me ⟨"not-an-objectid", "a@x.com", 1800, 0⟩ dbReg).1 = .error userNotFoundErr
      ∧ userNotFoundErr.status = 404) :=
  ⟨by decide,
   C10_malformed_object_id "not-an-objectid" dbReg ⟨"not-an-objectid", "a@x.com", 1800, 0⟩
     (by decide) rfl⟩

end Auth
